import Mathlib

/-!
Verification of the remote Airtable MCP server (Cloudflare Workers, GitHub OAuth).

Shallow embedding of the two source files:
- the tool module (Zod input schemas, the AirtableService REST adapter, and
  registerAirtableTools with its ALLOWED_WRITE_USERNAMES gate), and
- src/index.ts (the AirtableMCP durable object with cleanup and alarm).

JavaScript numbers are modelled as rationals, JSON values as an inductive type,
and the external HTTP provider as a function from requests to responses.
-/

/-- Minimal JSON value model for request bodies and provider payloads. -/
inductive Json where
  | null : Json
  | bool (b : Bool) : Json
  | num (q : Rat) : Json
  | str (s : String) : Json
  | arr (xs : List Json) : Json
  | obj (fields : List (String × Json)) : Json

/-- Sort direction enumeration from the Zod schema z.enum(["asc", "desc"]). -/
inductive SortDirection where
  | asc
  | desc
deriving DecidableEq

/-- Wire value of a sort direction. -/
def dirParam : SortDirection → String
  | .asc => "asc"
  | .desc => "desc"

/-- One element of the ListRecords sort array: { field : string, direction? }. -/
structure SortItem where
  field : String
  direction : Option SortDirection
deriving DecidableEq

/-- Arguments of the listRecords tool (after structural decoding). -/
structure ListRecordsInput where
  baseId : String
  tableId : String
  view : Option String
  maxRecords : Option Rat
  sort : Option (List SortItem)
  filterByFormula : Option String

/-- Arguments of the getRecord tool. -/
structure GetRecordInput where
  baseId : String
  tableId : String
  recordId : String

/-- Arguments of the listTables tool. -/
structure ListTablesInput where
  baseId : String

/-- Arguments of the describeTable tool. -/
structure DescribeTableInput where
  baseId : String
  tableId : String

/-- Arguments of the createRecord tool; fields is an opaque key-value map. -/
structure CreateRecordInput where
  baseId : String
  tableId : String
  fields : List (String × Json)

/-- One entry of the updateRecords batch: { id : string, fields : record }.
The id is declared as z.string() with no minimum-length refinement. -/
structure UpdateEntry where
  id : String
  fields : List (String × Json)

/-- Arguments of the updateRecords tool. -/
structure UpdateRecordsInput where
  baseId : String
  tableId : String
  records : List UpdateEntry

/-- Arguments of the deleteRecords tool; recordIds elements are z.string()
with no minimum-length refinement. -/
structure DeleteRecordsInput where
  baseId : String
  tableId : String
  recordIds : List String

/-- Arguments of the searchRecords tool. -/
structure SearchRecordsInput where
  baseId : String
  tableId : String
  filterByFormula : String
  maxRecords : Option Rat

/-- z.string().min(1): a required non-empty string. -/
def minLen1 (s : String) : Bool := decide (1 ≤ s.length)

/-- z.number().int().positive().max(100).optional(): absent, or an integer
strictly positive and at most 100. -/
def maxRecordsCheck : Option Rat → Bool
  | none => true
  | some q => q.isInt && decide (0 < q) && decide (q ≤ 100)

/-- z.array(...).min(1, ...).max(10, ...): batch length bound shared by
UpdateRecordsSchema.records and DeleteRecordsSchema.recordIds. -/
def batchSizeCheck (n : Nat) : Bool := decide (1 ≤ n) && decide (n ≤ 10)

/-- ListTablesSchema validation. -/
def listTablesValidate (i : ListTablesInput) : Bool := minLen1 i.baseId

/-- DescribeTableSchema validation. -/
def describeTableValidate (i : DescribeTableInput) : Bool :=
  minLen1 i.baseId && minLen1 i.tableId

/-- ListRecordsSchema validation. The view, sort and filterByFormula fields are
optional and structurally typed, so only baseId, tableId and maxRecords carry
value constraints. -/
def listRecordsValidate (i : ListRecordsInput) : Bool :=
  minLen1 i.baseId && minLen1 i.tableId && maxRecordsCheck i.maxRecords

/-- GetRecordSchema validation. -/
def getRecordValidate (i : GetRecordInput) : Bool :=
  minLen1 i.baseId && minLen1 i.tableId && minLen1 i.recordId

/-- CreateRecordSchema validation; fields is accepted as an opaque record. -/
def createRecordValidate (i : CreateRecordInput) : Bool :=
  minLen1 i.baseId && minLen1 i.tableId

/-- UpdateRecordsSchema validation: non-empty baseId and tableId plus the 1..10
batch bound; entry ids are unconstrained strings. -/
def updateRecordsValidate (i : UpdateRecordsInput) : Bool :=
  minLen1 i.baseId && minLen1 i.tableId && batchSizeCheck i.records.length

/-- DeleteRecordsSchema validation: non-empty baseId and tableId plus the 1..10
batch bound; id elements are unconstrained strings. -/
def deleteRecordsValidate (i : DeleteRecordsInput) : Bool :=
  minLen1 i.baseId && minLen1 i.tableId && batchSizeCheck i.recordIds.length

/-- SearchRecordsSchema validation: formula is required non-empty. -/
def searchRecordsValidate (i : SearchRecordsInput) : Bool :=
  minLen1 i.baseId && minLen1 i.tableId && minLen1 i.filterByFormula &&
    maxRecordsCheck i.maxRecords

/-- An HTTP request the service sends to the Airtable REST API: method, path,
query parameters (in append order, as built by URLSearchParams), JSON body. -/
structure Request where
  method : String
  path : String
  params : List (String × String)
  body : Option Json

/-- The response the external provider returns for a request: ok is
response.ok, jsonBody is what response.json() yields on success, textBody is
what response.text() yields on failure. -/
structure ProviderResponse where
  ok : Bool
  status : Nat
  statusText : String
  jsonBody : Json
  textBody : String

/-- The error message built by AirtableService.makeRequest for a non-ok
response: Airtable API error: status statusText - body. The whole body text is
interpolated. -/
def airtableErrorText (status : Nat) (statusText bodyText : String) : String :=
  "Airtable API error: " ++ toString status ++ " " ++ statusText ++ " - " ++ bodyText

/-- AirtableService.makeRequest: performs the fetch (modelled by the provider
function), returns the parsed JSON body on ok, otherwise throws the error
message built from status, statusText and the raw body text. -/
def makeRequest (provider : Request → ProviderResponse) (req : Request) :
    Except String Json :=
  let resp := provider req
  if resp.ok then Except.ok resp.jsonBody
  else Except.error (airtableErrorText resp.status resp.statusText resp.textBody)

/-- JS truthiness check used by the listRecords option appends: an optional
string participates only when present and non-empty. -/
def optStrParam (key : String) : Option String → List (String × String)
  | none => []
  | some s => if s == "" then [] else [(key, s)]

/-- if (options.maxRecords) params.append("maxRecords", n.toString()):
present and non-zero numbers only (0 is falsy in JS). -/
def maxRecordsParam : Option Rat → List (String × String)
  | none => []
  | some q => if q == 0 then [] else [("maxRecords", toString q)]

/-- Query key sort[i][field]. -/
def sortFieldKey (i : Nat) : String := "sort[" ++ toString i ++ "][field]"

/-- Query key sort[i][direction]. -/
def sortDirKey (i : Nat) : String := "sort[" ++ toString i ++ "][direction]"

/-- Parameters appended for one sort entry at index i: always the field key,
and the direction key only when a direction is present (the source guards with
if (sortItem.direction)). -/
def sortEntryParams (i : Nat) (item : SortItem) : List (String × String) :=
  (sortFieldKey i, item.field) ::
    (match item.direction with
     | some d => [(sortDirKey i, dirParam d)]
     | none => [])

/-- options.sort.forEach((sortItem, index) => ...) starting at index i. -/
def sortParamsFrom (i : Nat) : List SortItem → List (String × String)
  | [] => []
  | item :: rest => sortEntryParams i item ++ sortParamsFrom (i + 1) rest

/-- Options record passed to AirtableService.listRecords. -/
structure ListRecordsOptions where
  view : Option String
  maxRecords : Option Rat
  sort : Option (List SortItem)
  filterByFormula : Option String

/-- The full query parameter list AirtableService.listRecords builds, in the
exact append order of the source: view, maxRecords, filterByFormula, sort. -/
def listRecordsParams (o : ListRecordsOptions) : List (String × String) :=
  optStrParam "view" o.view ++ maxRecordsParam o.maxRecords ++
    optStrParam "filterByFormula" o.filterByFormula ++
    (match o.sort with
     | some l => sortParamsFrom 0 l
     | none => [])

/-- The GET request AirtableService.listRecords issues. -/
def listRecordsRequest (baseId tableId : String) (o : ListRecordsOptions) :
    Request :=
  { method := "GET", path := "/" ++ baseId ++ "/" ++ tableId,
    params := listRecordsParams o, body := none }

/-- GET /meta/bases. -/
def listBasesRequest : Request :=
  { method := "GET", path := "/meta/bases", params := [], body := none }

/-- GET /meta/bases/baseId/tables. -/
def baseSchemaRequest (baseId : String) : Request :=
  { method := "GET", path := "/meta/bases/" ++ baseId ++ "/tables",
    params := [], body := none }

/-- GET /baseId/tableId/recordId. -/
def getRecordRequest (baseId tableId recordId : String) : Request :=
  { method := "GET", path := "/" ++ baseId ++ "/" ++ tableId ++ "/" ++ recordId,
    params := [], body := none }

/-- POST /baseId/tableId with body { fields }. -/
def createRecordRequest (baseId tableId : String)
    (fields : List (String × Json)) : Request :=
  { method := "POST", path := "/" ++ baseId ++ "/" ++ tableId, params := [],
    body := some (Json.obj [("fields", Json.obj fields)]) }

/-- JSON encoding of the updateRecords batch body entries. -/
def encodeUpdateEntries (records : List UpdateEntry) : Json :=
  Json.arr (records.map fun r =>
    Json.obj [("id", Json.str r.id), ("fields", Json.obj r.fields)])

/-- PATCH /baseId/tableId with body { records }. -/
def updateRecordsRequest (baseId tableId : String)
    (records : List UpdateEntry) : Request :=
  { method := "PATCH", path := "/" ++ baseId ++ "/" ++ tableId, params := [],
    body := some (Json.obj [("records", encodeUpdateEntries records)]) }

/-- DELETE /baseId/tableId with one records[] query parameter per id. -/
def deleteRecordsRequest (baseId tableId : String) (recordIds : List String) :
    Request :=
  { method := "DELETE", path := "/" ++ baseId ++ "/" ++ tableId,
    params := recordIds.map (fun id => ("records[]", id)), body := none }

/-- AirtableService.listBases. -/
def AirtableService.listBases (provider : Request → ProviderResponse) :
    Except String Json :=
  makeRequest provider listBasesRequest

/-- AirtableService.getBaseSchema. -/
def AirtableService.getBaseSchema (provider : Request → ProviderResponse)
    (baseId : String) : Except String Json :=
  makeRequest provider (baseSchemaRequest baseId)

/-- AirtableService.listRecords: builds the parameter list and issues one GET
request; the provider result is returned unchanged. -/
def AirtableService.listRecords (provider : Request → ProviderResponse)
    (baseId tableId : String) (o : ListRecordsOptions) : Except String Json :=
  makeRequest provider (listRecordsRequest baseId tableId o)

/-- AirtableService.getRecord. -/
def AirtableService.getRecord (provider : Request → ProviderResponse)
    (baseId tableId recordId : String) : Except String Json :=
  makeRequest provider (getRecordRequest baseId tableId recordId)

/-- AirtableService.createRecord. -/
def AirtableService.createRecord (provider : Request → ProviderResponse)
    (baseId tableId : String) (fields : List (String × Json)) :
    Except String Json :=
  makeRequest provider (createRecordRequest baseId tableId fields)

/-- AirtableService.updateRecords: one batched PATCH request; the provider
result (per-entry outcomes included) is returned unchanged. -/
def AirtableService.updateRecords (provider : Request → ProviderResponse)
    (baseId tableId : String) (records : List UpdateEntry) :
    Except String Json :=
  makeRequest provider (updateRecordsRequest baseId tableId records)

/-- AirtableService.deleteRecords: one batched DELETE request; the provider
result (per-id deleted flags included) is returned unchanged. -/
def AirtableService.deleteRecords (provider : Request → ProviderResponse)
    (baseId tableId : String) (recordIds : List String) : Except String Json :=
  makeRequest provider (deleteRecordsRequest baseId tableId recordIds)

/-- Names of the nine tools registerAirtableTools can register. -/
inductive ToolName where
  | listBases
  | listTables
  | describeTable
  | listRecords
  | getRecord
  | searchRecords
  | createRecord
  | updateRecords
  | deleteRecords
deriving DecidableEq

/-- READ versus WRITE classification of the tools. -/
inductive OpClass where
  | READ
  | WRITE
deriving DecidableEq

/-- createRecord, updateRecords and deleteRecords are the WRITE operations;
the six others are READ. -/
def classification : ToolName → OpClass
  | .createRecord => .WRITE
  | .updateRecords => .WRITE
  | .deleteRecords => .WRITE
  | _ => .READ

/-- The static allow-list of GitHub usernames with write access. In the source
it is an empty set with a comment inviting users to add names. -/
def ALLOWED_WRITE_USERNAMES : List String := []

/-- registerAirtableTools, parameterized by the allow-list: the six read tools
are always registered in source order; the three write tools are registered
iff the login is in the allow-list, evaluated once at registration time. -/
def registerAirtableToolsWith (allowed : List String) (login : String) :
    List ToolName :=
  [ToolName.listBases, ToolName.listTables, ToolName.describeTable,
    ToolName.listRecords, ToolName.getRecord, ToolName.searchRecords] ++
    (if login ∈ allowed then
      [ToolName.createRecord, ToolName.updateRecords, ToolName.deleteRecords]
     else [])

/-- registerAirtableTools with the allow-list constant of the source. -/
def registerAirtableTools (login : String) : List ToolName :=
  registerAirtableToolsWith ALLOWED_WRITE_USERNAMES login

/-- The result envelope abstraction: ok mirrors the absence of isError in the
tool response, payload the JSON carried on success, errorMessage the error
text carried on failure. -/
structure Envelope where
  ok : Bool
  payload : Option Json
  errorMessage : Option String

/-- The fixed error text each tool handler prepends in its catch branch. -/
def failTextOf : ToolName → String
  | .listBases => "Failed to list bases: "
  | .listTables => "Failed to list tables: "
  | .describeTable => "Failed to describe table: "
  | .listRecords => "Failed to list records: "
  | .getRecord => "Failed to get record: "
  | .searchRecords => "Failed to search records: "
  | .createRecord => "Failed to create record: "
  | .updateRecords => "Failed to update records: "
  | .deleteRecords => "Failed to delete records: "

/-- Common try/catch shape of the tool handlers: a successful service call is
wrapped as an ok envelope carrying the result verbatim; a thrown error becomes
a failure envelope with the fixed per-tool text followed by the message. -/
def mkToolResult (t : ToolName) : Except String Json → Envelope
  | .ok j => { ok := true, payload := some j, errorMessage := none }
  | .error m => { ok := false, payload := none,
                  errorMessage := some (failTextOf t ++ m) }

/-- listBases tool handler. -/
def listBasesTool (provider : Request → ProviderResponse) : Envelope :=
  mkToolResult .listBases (AirtableService.listBases provider)

/-- listTables tool handler. -/
def listTablesTool (provider : Request → ProviderResponse)
    (baseId : String) : Envelope :=
  mkToolResult .listTables (AirtableService.getBaseSchema provider baseId)

/-- listRecords tool handler. -/
def listRecordsTool (provider : Request → ProviderResponse)
    (baseId tableId : String) (o : ListRecordsOptions) : Envelope :=
  mkToolResult .listRecords (AirtableService.listRecords provider baseId tableId o)

/-- getRecord tool handler. -/
def getRecordTool (provider : Request → ProviderResponse)
    (baseId tableId recordId : String) : Envelope :=
  mkToolResult .getRecord (AirtableService.getRecord provider baseId tableId recordId)

/-- searchRecords tool handler: delegates to AirtableService.listRecords with
exactly filterByFormula and maxRecords set, no view and no sort. -/
def searchRecordsTool (provider : Request → ProviderResponse)
    (baseId tableId formula : String) (maxRecords : Option Rat) : Envelope :=
  mkToolResult .searchRecords (AirtableService.listRecords provider baseId tableId
    { view := none, maxRecords := maxRecords, sort := none,
      filterByFormula := some formula })

/-- createRecord tool handler. -/
def createRecordTool (provider : Request → ProviderResponse)
    (baseId tableId : String) (fields : List (String × Json)) : Envelope :=
  mkToolResult .createRecord (AirtableService.createRecord provider baseId tableId fields)

/-- updateRecords tool handler. -/
def updateRecordsTool (provider : Request → ProviderResponse)
    (baseId tableId : String) (records : List UpdateEntry) : Envelope :=
  mkToolResult .updateRecords (AirtableService.updateRecords provider baseId tableId records)

/-- deleteRecords tool handler. -/
def deleteRecordsTool (provider : Request → ProviderResponse)
    (baseId tableId : String) (recordIds : List String) : Envelope :=
  mkToolResult .deleteRecords (AirtableService.deleteRecords provider baseId tableId recordIds)

/-- A table as consumed by the describeTable handler. -/
structure AirtableTable where
  id : String
  name : String
  primaryFieldId : String
  fields : List Json
  views : List Json

/-- JSON encoding of a table, as serialized into the success response. -/
def encodeTable (t : AirtableTable) : Json :=
  Json.obj [("id", Json.str t.id), ("name", Json.str t.name),
    ("primaryFieldId", Json.str t.primaryFieldId),
    ("fields", Json.arr t.fields), ("views", Json.arr t.views)]

/-- describeTable tool handler: fetches the base schema (outcome abstracted as
the first argument), finds the table by id, and answers with the table, a
not-found failure, or the caught error. -/
def describeTableTool (schemaResult : Except String (List AirtableTable))
    (baseId tableId : String) : Envelope :=
  match schemaResult with
  | .error m => { ok := false, payload := none,
                  errorMessage := some (failTextOf .describeTable ++ m) }
  | .ok tables =>
    match tables.find? (fun t => t.id == tableId) with
    | none => { ok := false, payload := none,
                errorMessage := some ("Table " ++ tableId ++ " not found in base "
                  ++ baseId) }
    | some t => { ok := true, payload := some (encodeTable t),
                  errorMessage := none }

/-- Requests the listRecords tool causes: the MCP server validates the
arguments against ListRecordsSchema before the handler runs, so an invalid
input issues no provider request at all. -/
def listRecordsIssued (i : ListRecordsInput) : List Request :=
  if listRecordsValidate i then
    [listRecordsRequest i.baseId i.tableId
      { view := i.view, maxRecords := i.maxRecords, sort := i.sort,
        filterByFormula := i.filterByFormula }]
  else []

/-- Requests the searchRecords tool causes; none on validation failure. -/
def searchRecordsIssued (i : SearchRecordsInput) : List Request :=
  if searchRecordsValidate i then
    [listRecordsRequest i.baseId i.tableId
      { view := none, maxRecords := i.maxRecords, sort := none,
        filterByFormula := some i.filterByFormula }]
  else []

/-- Requests the updateRecords tool causes; none on validation failure. -/
def updateRecordsIssued (i : UpdateRecordsInput) : List Request :=
  if updateRecordsValidate i then
    [updateRecordsRequest i.baseId i.tableId i.records]
  else []

/-- Requests the deleteRecords tool causes; none on validation failure. -/
def deleteRecordsIssued (i : DeleteRecordsInput) : List Request :=
  if deleteRecordsValidate i then
    [deleteRecordsRequest i.baseId i.tableId i.recordIds]
  else []

/-- Persistent fields of the AirtableMCP durable object: the McpServer
configuration created in src/index.ts. -/
structure DurableState where
  serverName : String
  serverVersion : String

/-- AirtableMCP.cleanup from src/index.ts: inside try/catch it only writes a
log line; it holds no resources, changes no state, and propagates no error
(the catch swallows any). Result: (state, log, raised error). -/
def cleanup (s : DurableState) (log : List String) :
    DurableState × List String × Option String :=
  (s, log ++ ["Airtable MCP server cleanup completed successfully"], none)

/-- AirtableMCP.alarm from src/index.ts: the idle alarm invokes cleanup. -/
def alarm (s : DurableState) (log : List String) :
    DurableState × List String × Option String :=
  cleanup s log

/-- How the provider reads a direction value from the wire. -/
def parseDirParam (v : String) : SortDirection :=
  if v == "desc" then SortDirection.desc else SortDirection.asc

/-- Modelled from the spec: the external tabular-data provider is not part of
src, and the spec states that a sort direction is optional and defaults to
ascending. This parser reconstructs, from the query parameters in wire order,
the (field, direction) sequence the provider applies: each sort[i][field]
parameter opens entry i, an immediately following sort[i][direction] parameter
sets its direction, and an entry without a direction parameter sorts
ascending; unrelated parameters are skipped. -/
def providerSortSpec (i : Nat) : List (String × String) → List (String × SortDirection)
  | [] => []
  | (k, v) :: rest =>
    if k == sortFieldKey i then
      match rest with
      | [] => [(v, SortDirection.asc)]
      | (k2, v2) :: rest2 =>
        if k2 == sortDirKey i then
          (v, parseDirParam v2) :: providerSortSpec (i + 1) rest2
        else
          (v, SortDirection.asc) :: providerSortSpec (i + 1) ((k2, v2) :: rest2)
    else providerSortSpec i rest
termination_by l => l.length
decreasing_by all_goals simp <;> omega

/-- The direction a sort entry takes effect with: the given one, else asc. -/
def effectiveDirection (item : SortItem) : SortDirection :=
  item.direction.getD SortDirection.asc

theorem sortFieldKey_ne_sortDirKey (i j : Nat) : sortFieldKey i ≠ sortDirKey j := by
  intro h
  have h2 := congrArg (fun x => x.data.reverse) h
  simp [sortFieldKey, sortDirKey, String.data_append] at h2

theorem view_ne_sortFieldKey (i : Nat) : ("view" : String) ≠ sortFieldKey i := by
  intro h
  have h2 := congrArg String.data h
  simp [sortFieldKey, String.data_append] at h2

theorem maxRecords_ne_sortFieldKey (i : Nat) :
    ("maxRecords" : String) ≠ sortFieldKey i := by
  intro h
  have h2 := congrArg String.data h
  simp [sortFieldKey, String.data_append] at h2

theorem filterByFormula_ne_sortFieldKey (i : Nat) :
    ("filterByFormula" : String) ≠ sortFieldKey i := by
  intro h
  have h2 := congrArg String.data h
  simp [sortFieldKey, String.data_append] at h2

theorem providerSortSpec_skip (i : Nat) (k v : String)
    (ps : List (String × String)) (h : k ≠ sortFieldKey i) :
    providerSortSpec i ((k, v) :: ps) = providerSortSpec i ps := by
  have hb : (k == sortFieldKey i) = false := beq_eq_false_iff_ne.mpr h
  rw [providerSortSpec.eq_def]
  simp [hb]

theorem parseDirParam_dirParam (d : SortDirection) :
    parseDirParam (dirParam d) = d := by
  cases d <;> rfl

theorem providerSortSpec_sortParamsFrom (l : List SortItem) (i : Nat) :
    providerSortSpec i (sortParamsFrom i l) =
      l.map (fun it => (it.field, effectiveDirection it)) := by
  induction l generalizing i with
  | nil => simp [sortParamsFrom, providerSortSpec]
  | cons item rest ih =>
    cases hdir : item.direction with
    | some d =>
      rw [sortParamsFrom]
      simp only [sortEntryParams, hdir, List.cons_append, List.singleton_append]
      rw [providerSortSpec]
      simp only [beq_self_eq_true, if_true, parseDirParam_dirParam,
        List.map_cons, List.nil_append]
      rw [ih (i + 1)]
      simp [effectiveDirection, hdir]
    | none =>
      cases rest with
      | nil =>
        rw [sortParamsFrom]
        simp only [sortEntryParams, hdir, List.nil_append, sortParamsFrom,
          List.append_nil]
        rw [providerSortSpec]
        simp [effectiveDirection, hdir]
      | cons item2 rest2 =>
        have hne : (sortFieldKey (i + 1) == sortDirKey i) = false :=
          beq_eq_false_iff_ne.mpr (sortFieldKey_ne_sortDirKey (i + 1) i)
        rw [sortParamsFrom]
        simp only [sortEntryParams, hdir, List.nil_append, List.cons_append]
        rw [sortParamsFrom]
        simp only [sortEntryParams, List.cons_append]
        rw [providerSortSpec]
        simp only [beq_self_eq_true, if_true, hne, Bool.false_eq_true,
          if_false, List.map_cons]
        have h2 := ih (i + 1)
        rw [sortParamsFrom] at h2
        simp only [sortEntryParams, List.cons_append] at h2
        rw [h2]
        simp [effectiveDirection, hdir]

theorem providerSortSpec_optStrParam (i : Nat) (key : String)
    (s : Option String) (ps : List (String × String))
    (hk : key ≠ sortFieldKey i) :
    providerSortSpec i (optStrParam key s ++ ps) = providerSortSpec i ps := by
  cases s with
  | none => rfl
  | some v =>
    by_cases hv : v == ""
    · simp [optStrParam, hv]
    · simp only [optStrParam, hv, Bool.false_eq_true, if_false,
        List.singleton_append]
      exact providerSortSpec_skip i key v ps hk

theorem providerSortSpec_maxRecordsParam (i : Nat) (m : Option Rat)
    (ps : List (String × String)) :
    providerSortSpec i (maxRecordsParam m ++ ps) = providerSortSpec i ps := by
  cases m with
  | none => rfl
  | some q =>
    by_cases hq : q == 0
    · simp [maxRecordsParam, hq]
    · simp only [maxRecordsParam, hq, Bool.false_eq_true, if_false,
        List.singleton_append]
      exact providerSortSpec_skip i "maxRecords" (toString q) ps
        (maxRecords_ne_sortFieldKey i)

/-- The sort specification the provider applies to a listRecords request:
exactly the given sort entries, each with its direction defaulted to asc. -/
theorem providerSortSpec_listRecordsParams (o : ListRecordsOptions) :
    providerSortSpec 0 (listRecordsParams o) =
      (o.sort.getD []).map (fun it => (it.field, effectiveDirection it)) := by
  unfold listRecordsParams
  rw [List.append_assoc, List.append_assoc,
    providerSortSpec_optStrParam 0 "view" o.view _ (view_ne_sortFieldKey 0),
    providerSortSpec_maxRecordsParam 0 o.maxRecords,
    providerSortSpec_optStrParam 0 "filterByFormula" o.filterByFormula _
      (filterByFormula_ne_sortFieldKey 0)]
  cases hs : o.sort with
  | none => simp [providerSortSpec]
  | some l =>
    simp only [Option.getD]
    exact providerSortSpec_sortParamsFrom l 0

/-- A provider that always fails with HTTP 500 and body boom. -/
def failingProvider : Request → ProviderResponse :=
  fun _ => { ok := false, status := 500, statusText := "Internal Server Error",
             jsonBody := Json.null, textBody := "boom" }

/-- A provider returning a mixed delete outcome: three ids, two deleted and
one not. -/
def mixedDeleteBody : Json :=
  Json.obj [("records", Json.arr [
    Json.obj [("id", Json.str "rec1"), ("deleted", Json.bool true)],
    Json.obj [("id", Json.str "rec2"), ("deleted", Json.bool false)],
    Json.obj [("id", Json.str "rec3"), ("deleted", Json.bool true)]])]

/-- A provider that always succeeds with the mixed delete outcome body. -/
def okMixedProvider : Request → ProviderResponse :=
  fun _ => { ok := true, status := 200, statusText := "OK",
             jsonBody := mixedDeleteBody, textBody := "" }

/-- C1: in every session registry built by registerAirtableTools, a tool is
present iff it is READ-classified or the login is in the allow-list used at
registration time: each WRITE tool (createRecord, updateRecords,
deleteRecords) is registered iff the login is allow-listed, and each READ tool
is registered for every authenticated identity. -/
theorem write_tools_iff_allowlisted (allowed : List String) (login : String)
    (t : ToolName) :
    t ∈ registerAirtableToolsWith allowed login ↔
      (classification t = OpClass.READ ∨ login ∈ allowed) := by
  cases t <;> by_cases h : login ∈ allowed <;>
    simp [registerAirtableToolsWith, classification, h]

/-- C2: updateRecords and deleteRecords batches of size 0 or more than 10 fail
validation and cause no provider request; every batch size from 1 to 10
passes the batch-size bound. -/
theorem batch_size_validation (u : UpdateRecordsInput) (d : DeleteRecordsInput)
    (n : Nat) :
    ((u.records.length = 0 ∨ 10 < u.records.length) →
        updateRecordsValidate u = false ∧ updateRecordsIssued u = []) ∧
    ((d.recordIds.length = 0 ∨ 10 < d.recordIds.length) →
        deleteRecordsValidate d = false ∧ deleteRecordsIssued d = []) ∧
    (1 ≤ n → n ≤ 10 → batchSizeCheck n = true) := by
  refine ⟨?_, ?_, ?_⟩
  · intro h
    have hb : batchSizeCheck u.records.length = false := by
      rcases h with h | h <;> simp [batchSizeCheck] <;> omega
    have hv : updateRecordsValidate u = false := by
      simp [updateRecordsValidate, hb]
    exact ⟨hv, by simp [updateRecordsIssued, hv]⟩
  · intro h
    have hb : batchSizeCheck d.recordIds.length = false := by
      rcases h with h | h <;> simp [batchSizeCheck] <;> omega
    have hv : deleteRecordsValidate d = false := by
      simp [deleteRecordsValidate, hb]
    exact ⟨hv, by simp [deleteRecordsIssued, hv]⟩
  · intro h1 h2
    simp [batchSizeCheck]
    omega

/-- C2 batch bound witness at sizes 0, 11 and 5. -/
theorem batch_size_validation_witness :
    updateRecordsValidate
        { baseId := "appA", tableId := "tblA", records := [] } = false ∧
    updateRecordsIssued
        { baseId := "appA", tableId := "tblA", records := [] } = [] ∧
    deleteRecordsValidate
        { baseId := "appA", tableId := "tblA",
          recordIds := ["r1", "r2", "r3", "r4", "r5", "r6", "r7", "r8", "r9",
            "r10", "r11"] } = false ∧
    deleteRecordsIssued
        { baseId := "appA", tableId := "tblA",
          recordIds := ["r1", "r2", "r3", "r4", "r5", "r6", "r7", "r8", "r9",
            "r10", "r11"] } = [] ∧
    batchSizeCheck 5 = true := by
  have h := batch_size_validation
    { baseId := "appA", tableId := "tblA", records := [] }
    { baseId := "appA", tableId := "tblA",
      recordIds := ["r1", "r2", "r3", "r4", "r5", "r6", "r7", "r8", "r9",
          "r10", "r11"] } 5
  exact ⟨(h.1 (Or.inl rfl)).1, (h.1 (Or.inl rfl)).2,
    (h.2.1 (Or.inr (by decide))).1, (h.2.1 (Or.inr (by decide))).2,
    h.2.2 (by decide) (by decide)⟩

/-- C3: when the provider answers a batched deleteRecords or updateRecords
request successfully, the JSON body with its per-entry outcomes is returned
verbatim as the success payload: neither the adapter nor the tool handler
modifies, drops, reorders or replaces it. -/
theorem batch_outcomes_passthrough (provider : Request → ProviderResponse)
    (baseId tableId : String) (recordIds : List String)
    (records : List UpdateEntry)
    (hd : (provider (deleteRecordsRequest baseId tableId recordIds)).ok = true)
    (hu : (provider (updateRecordsRequest baseId tableId records)).ok = true) :
    deleteRecordsTool provider baseId tableId recordIds =
      { ok := true,
        payload :=
          some ((provider (deleteRecordsRequest baseId tableId recordIds)).jsonBody),
        errorMessage := none } ∧
    updateRecordsTool provider baseId tableId records =
      { ok := true,
        payload :=
          some ((provider (updateRecordsRequest baseId tableId records)).jsonBody),
        errorMessage := none } := by
  constructor <;>
    simp [deleteRecordsTool, updateRecordsTool, AirtableService.deleteRecords,
      AirtableService.updateRecords, makeRequest, hd, hu, mkToolResult]

/-- C3 witness: three delete outcomes with mixed success flags come back
verbatim. -/
theorem batch_outcomes_passthrough_witness :
    deleteRecordsTool okMixedProvider "appA" "tblA" ["rec1", "rec2", "rec3"] =
      { ok := true, payload := some mixedDeleteBody, errorMessage := none } :=
  (batch_outcomes_passthrough okMixedProvider "appA" "tblA"
    ["rec1", "rec2", "rec3"] [] rfl rfl).1

/-- C4: every tool result envelope has the stated shape: a failed command
carries a null payload together with a non-empty error message, and a
successful command carries a null error message; this covers the shared
try/catch wrapper of all nine handlers and the dedicated not-found branch of
describeTable. -/
theorem envelope_shape (t : ToolName) (r : Except String Json)
    (rs : Except String (List AirtableTable)) (baseId tableId : String) :
    ((mkToolResult t r).ok = false →
        (mkToolResult t r).payload = none ∧
        ∃ m, (mkToolResult t r).errorMessage = some m ∧ 0 < m.length) ∧
    ((mkToolResult t r).ok = true → (mkToolResult t r).errorMessage = none) ∧
    ((describeTableTool rs baseId tableId).ok = false →
        (describeTableTool rs baseId tableId).payload = none ∧
        ∃ m, (describeTableTool rs baseId tableId).errorMessage = some m ∧
          0 < m.length) ∧
    ((describeTableTool rs baseId tableId).ok = true →
        (describeTableTool rs baseId tableId).errorMessage = none) := by
  have hft : ∀ t' : ToolName, 0 < (failTextOf t').length := by
    intro t'; cases t' <;> decide
  refine ⟨?_, ?_, ?_, ?_⟩
  · intro h
    cases r with
    | ok j => simp [mkToolResult] at h
    | error m =>
      refine ⟨rfl, failTextOf t ++ m, rfl, ?_⟩
      rw [String.length_append]
      have := hft t
      omega
  · intro h
    cases r with
    | ok j => rfl
    | error m => simp [mkToolResult] at h
  · intro h
    cases rs with
    | error m =>
      refine ⟨rfl, failTextOf .describeTable ++ m, rfl, ?_⟩
      rw [String.length_append]
      have := hft ToolName.describeTable
      omega
    | ok tables =>
      cases hf : tables.find? (fun tb => tb.id == tableId) with
      | none =>
        refine ⟨by simp [describeTableTool, hf],
          "Table " ++ tableId ++ " not found in base " ++ baseId,
          by simp [describeTableTool, hf], ?_⟩
        rw [String.length_append, String.length_append, String.length_append]
        have h6 : ("Table " : String).length = 6 := rfl
        omega
      | some tb => simp [describeTableTool, hf] at h
  · intro h
    cases rs with
    | error m => simp [describeTableTool] at h
    | ok tables =>
      cases hf : tables.find? (fun tb => tb.id == tableId) with
      | none => simp [describeTableTool, hf] at h
      | some tb => simp [describeTableTool, hf]

/-- C4 witness: a failing listBases command has a null payload. -/
theorem envelope_shape_witness :
    (mkToolResult ToolName.listBases (Except.error "boom")).payload = none :=
  ((envelope_shape ToolName.listBases (Except.error "boom")
    (Except.ok []) "appA" "tblA").1 rfl).1

/-- C5 counterexample: an updateRecords entry whose record id is the empty
string, and a deleteRecords id array containing the empty string, both pass
validation, so empty inner record ids are not rejected. -/
theorem empty_inner_ids_accepted :
    updateRecordsValidate
        { baseId := "appA", tableId := "tblA",
          records := [{ id := "", fields := [] }] } = true ∧
    deleteRecordsValidate
        { baseId := "appA", tableId := "tblA", recordIds := [""] } = true := by
  constructor <;> rfl

/-- C5 amended: the top-level baseId, tableId and recordId arguments are
validated as required non-empty strings in every schema that has them, while
the record ids inside updateRecords entries and the elements of the
deleteRecords recordIds array are accepted as arbitrary strings: validation is
invariant under any rewriting of those inner ids. -/
theorem identifier_validation (lt : ListTablesInput) (dt : DescribeTableInput)
    (lr : ListRecordsInput) (gr : GetRecordInput) (cr : CreateRecordInput)
    (u : UpdateRecordsInput) (d : DeleteRecordsInput) (sr : SearchRecordsInput)
    (f : String → String) :
    (lt.baseId = "" → listTablesValidate lt = false) ∧
    (dt.baseId = "" ∨ dt.tableId = "" → describeTableValidate dt = false) ∧
    (lr.baseId = "" ∨ lr.tableId = "" → listRecordsValidate lr = false) ∧
    (gr.baseId = "" ∨ gr.tableId = "" ∨ gr.recordId = "" →
        getRecordValidate gr = false) ∧
    (cr.baseId = "" ∨ cr.tableId = "" → createRecordValidate cr = false) ∧
    (u.baseId = "" ∨ u.tableId = "" → updateRecordsValidate u = false) ∧
    (d.baseId = "" ∨ d.tableId = "" → deleteRecordsValidate d = false) ∧
    (sr.baseId = "" ∨ sr.tableId = "" ∨ sr.filterByFormula = "" →
        searchRecordsValidate sr = false) ∧
    (updateRecordsValidate
        { u with
          records := u.records.map (fun r => { r with id := f r.id }) } =
      updateRecordsValidate u) ∧
    (deleteRecordsValidate { d with recordIds := d.recordIds.map f } =
      deleteRecordsValidate d) := by
  refine ⟨?_, ?_, ?_, ?_, ?_, ?_, ?_, ?_, ?_, ?_⟩
  · intro h; simp [listTablesValidate, h, minLen1]
  · rintro (h | h) <;> simp [describeTableValidate, h, minLen1]
  · rintro (h | h) <;> simp [listRecordsValidate, h, minLen1]
  · rintro (h | h | h) <;> simp [getRecordValidate, h, minLen1]
  · rintro (h | h) <;> simp [createRecordValidate, h, minLen1]
  · rintro (h | h) <;> simp [updateRecordsValidate, h, minLen1]
  · rintro (h | h) <;> simp [deleteRecordsValidate, h, minLen1]
  · rintro (h | h | h) <;> simp [searchRecordsValidate, h, minLen1]
  · simp [updateRecordsValidate, List.length_map]
  · simp [deleteRecordsValidate, List.length_map]

/-- C5 amended witness: an empty baseId fails getRecord validation. -/
theorem identifier_validation_witness :
    getRecordValidate { baseId := "", tableId := "tblA", recordId := "rec1" } =
      false :=
  (identifier_validation { baseId := "appA" }
    { baseId := "appA", tableId := "tblA" }
    { baseId := "appA", tableId := "tblA", view := none, maxRecords := none,
      sort := none, filterByFormula := none }
    { baseId := "", tableId := "tblA", recordId := "rec1" }
    { baseId := "appA", tableId := "tblA", fields := [] }
    { baseId := "appA", tableId := "tblA", records := [] }
    { baseId := "appA", tableId := "tblA", recordIds := [] }
    { baseId := "appA", tableId := "tblA", filterByFormula := "TRUE()",
      maxRecords := none }
    id).2.2.2.1 (Or.inl rfl)

/-- C6 counterexample: no length bound holds for the failure message that
makeRequest builds from a non-success response: the raw upstream body is
embedded whole, so the message grows beyond any proposed bound. -/
theorem error_text_unbounded :
    ¬ ∃ B : Nat, ∀ body : String,
        (airtableErrorText 404 "Not Found" body).length ≤ B := by
  rintro ⟨B, h⟩
  have h2 := h (String.mk (List.replicate (B + 1) 'x'))
  have h3 : (String.mk (List.replicate (B + 1) 'x')).length = B + 1 := by
    show (List.replicate (B + 1) 'x').length = B + 1
    simp
  simp only [airtableErrorText, String.length_append, h3] at h2
  omega

/-- C6 amended: the failure message embeds the entire upstream body with no
truncation: it is the fixed status text followed by the whole body, and its
length is exactly the fixed part plus the body length. -/
theorem error_text_embeds_full_body (status : Nat) (statusText body : String) :
    airtableErrorText status statusText body =
      airtableErrorText status statusText "" ++ body ∧
    (airtableErrorText status statusText body).length =
      (airtableErrorText status statusText "").length + body.length := by
  constructor
  · simp [airtableErrorText]
  · simp [airtableErrorText, String.length_append]

/-- C7: a supplied maxRecords greater than 100, equal to zero, negative, or
non-integral fails listRecords and searchRecords validation and no provider
request is issued, while an absent maxRecords or any integer from 1 to 100
passes the bound check. -/
theorem max_records_bounds (li : ListRecordsInput) (si : SearchRecordsInput)
    (q : Rat) (n : Int) :
    (li.maxRecords = some q → (100 < q ∨ q = 0 ∨ q < 0 ∨ q.isInt = false) →
        listRecordsValidate li = false ∧ listRecordsIssued li = []) ∧
    (si.maxRecords = some q → (100 < q ∨ q = 0 ∨ q < 0 ∨ q.isInt = false) →
        searchRecordsValidate si = false ∧ searchRecordsIssued si = []) ∧
    (1 ≤ n → n ≤ 100 → maxRecordsCheck (some (n : Rat)) = true) ∧
    maxRecordsCheck none = true := by
  have hchk : (100 < q ∨ q = 0 ∨ q < 0 ∨ q.isInt = false) →
      maxRecordsCheck (some q) = false := by
    rintro (h | h | h | h)
    · have hd : decide (q ≤ 100) = false := decide_eq_false (not_le.mpr h)
      simp [maxRecordsCheck, hd]
    · have hd : decide (0 < q) = false :=
        decide_eq_false (by rw [h]; exact lt_irrefl 0)
      simp [maxRecordsCheck, hd]
    · have hd : decide (0 < q) = false :=
        decide_eq_false (not_lt.mpr (le_of_lt h))
      simp [maxRecordsCheck, hd]
    · simp [maxRecordsCheck, h]
  refine ⟨?_, ?_, ?_, rfl⟩
  · intro hm h
    have hv : listRecordsValidate li = false := by
      simp [listRecordsValidate, hm, hchk h]
    exact ⟨hv, by simp [listRecordsIssued, hv]⟩
  · intro hm h
    have hv : searchRecordsValidate si = false := by
      simp [searchRecordsValidate, hm, hchk h]
    exact ⟨hv, by simp [searchRecordsIssued, hv]⟩
  · intro ha hb
    have hpos : (0 : Rat) < (n : Rat) := by
      exact_mod_cast lt_of_lt_of_le Int.zero_lt_one ha
    have hle : ((n : Rat)) ≤ 100 := by exact_mod_cast hb
    simp [maxRecordsCheck, Rat.isInt, hpos, hle]

/-- C7 witness: maxRecords 101 is rejected with no request, and 50 passes. -/
theorem max_records_bounds_witness :
    listRecordsValidate
        { baseId := "appA", tableId := "tblA", view := none,
          maxRecords := some 101, sort := none, filterByFormula := none } =
      false ∧
    listRecordsIssued
        { baseId := "appA", tableId := "tblA", view := none,
          maxRecords := some 101, sort := none, filterByFormula := none } =
      [] ∧
    maxRecordsCheck (some ((50 : Int) : Rat)) = true := by
  have h := max_records_bounds
    { baseId := "appA", tableId := "tblA", view := none,
      maxRecords := some 101, sort := none, filterByFormula := none }
    { baseId := "appA", tableId := "tblA", filterByFormula := "TRUE()",
      maxRecords := none }
    101 50
  exact ⟨(h.1 rfl (Or.inl (by norm_num))).1, (h.1 rfl (Or.inl (by norm_num))).2,
    h.2.2.1 (by norm_num) (by norm_num)⟩

/-- C9: cleanup leaves the durable object state unchanged and raises no error,
so a second invocation (whether from the idle alarm or an explicit shutdown)
yields the same session state as the first and no double-release fault, and
alarm takes exactly the cleanup path. -/
theorem cleanup_idempotent (s : DurableState) (log : List String) :
    (cleanup s log).1 = s ∧
    (cleanup s log).2.2 = none ∧
    (cleanup (cleanup s log).1 (cleanup s log).2.1).1 = (cleanup s log).1 ∧
    (cleanup (cleanup s log).1 (cleanup s log).2.1).2.2 = none ∧
    alarm s log = cleanup s log :=
  ⟨rfl, rfl, rfl, rfl, rfl⟩

/-- C10 counterexample: with a failing provider, searchRecords and the
corresponding listRecords call return different envelopes: the error messages
carry different operation prefixes, so the two operations are not fully
equivalent on errors. -/
theorem search_vs_list_error_differs :
    searchRecordsTool failingProvider "appA" "tblA" "TRUE()" none ≠
      listRecordsTool failingProvider "appA" "tblA"
        { view := none, maxRecords := none, sort := none,
          filterByFormula := some "TRUE()" } := by
  intro h
  exact absurd (congrArg Envelope.errorMessage h) (by decide)

/-- C10 amended: for every validated input, searchRecords issues exactly the
request listRecords issues with options filterByFormula and maxRecords (no
view, no sort) and returns the identical envelope on provider success; on
provider failure both fail with the same provider error, the messages
differing only in the fixed operation prefix. -/
theorem search_refines_list (provider : Request → ProviderResponse)
    (si : SearchRecordsInput) (hv : searchRecordsValidate si = true) :
    searchRecordsIssued si =
      listRecordsIssued
        { baseId := si.baseId, tableId := si.tableId, view := none,
          maxRecords := si.maxRecords, sort := none,
          filterByFormula := some si.filterByFormula } ∧
    (∀ j, AirtableService.listRecords provider si.baseId si.tableId
        { view := none, maxRecords := si.maxRecords, sort := none,
          filterByFormula := some si.filterByFormula } = Except.ok j →
      searchRecordsTool provider si.baseId si.tableId si.filterByFormula
          si.maxRecords =
        listRecordsTool provider si.baseId si.tableId
          { view := none, maxRecords := si.maxRecords, sort := none,
            filterByFormula := some si.filterByFormula } ∧
      (searchRecordsTool provider si.baseId si.tableId si.filterByFormula
          si.maxRecords).payload = some j) ∧
    (∀ e, AirtableService.listRecords provider si.baseId si.tableId
        { view := none, maxRecords := si.maxRecords, sort := none,
          filterByFormula := some si.filterByFormula } = Except.error e →
      (searchRecordsTool provider si.baseId si.tableId si.filterByFormula
          si.maxRecords).errorMessage =
        some ("Failed to search records: " ++ e) ∧
      (listRecordsTool provider si.baseId si.tableId
          { view := none, maxRecords := si.maxRecords, sort := none,
            filterByFormula := some si.filterByFormula }).errorMessage =
        some ("Failed to list records: " ++ e)) := by
  refine ⟨?_, ?_, ?_⟩
  · simp only [searchRecordsValidate, Bool.and_eq_true] at hv
    simp [searchRecordsIssued, listRecordsIssued, searchRecordsValidate,
      listRecordsValidate, hv.1.1.1, hv.1.1.2, hv.1.2, hv.2]
  · intro j hj
    constructor
    · simp [searchRecordsTool, listRecordsTool, hj, mkToolResult]
    · simp [searchRecordsTool, hj, mkToolResult]
  · intro e he
    constructor
    · simp [searchRecordsTool, he, mkToolResult, failTextOf]
    · simp [listRecordsTool, he, mkToolResult, failTextOf]

/-- C10 amended witness: the searchRecords failure message is the search
prefix followed by the provider error. -/
theorem search_refines_list_witness :
    (searchRecordsTool failingProvider "appA" "tblA" "TRUE()"
        none).errorMessage =
      some ("Failed to search records: " ++
        "Airtable API error: 500 Internal Server Error - boom") :=
  ((search_refines_list failingProvider
      { baseId := "appA", tableId := "tblA", filterByFormula := "TRUE()",
        maxRecords := none } (by decide)).2.2
    "Airtable API error: 500 Internal Server Error - boom" rfl).1

/-- C8: in a listRecords request, a sort entry without a direction is applied
by the provider with direction asc: the effective sort specification of the
request equals that of the same request with the direction set explicitly to
asc, and the effective direction at that position is asc. -/
theorem sort_direction_defaults_asc (baseId tableId : String)
    (o : ListRecordsOptions) (l : List SortItem) (i : Nat)
    (hi : i < l.length) (hsort : o.sort = some l)
    (hdir : (l.get ⟨i, hi⟩).direction = none) :
    providerSortSpec 0 (listRecordsRequest baseId tableId o).params =
      providerSortSpec 0 (listRecordsRequest baseId tableId
        { o with
          sort := some (l.set i
            { field := (l.get ⟨i, hi⟩).field,
              direction := some SortDirection.asc }) }).params ∧
    (providerSortSpec 0 (listRecordsRequest baseId tableId o).params).get? i =
      some ((l.get ⟨i, hi⟩).field, SortDirection.asc) := by
  simp only [List.get_eq_getElem] at hdir
  constructor
  · simp only [listRecordsRequest, providerSortSpec_listRecordsParams, hsort,
      Option.getD, List.get_eq_getElem]
    apply List.ext_get
    · simp
    · intro j h1 h2
      simp only [List.get_eq_getElem, List.getElem_map]
      by_cases hji : j = i
      · subst hji
        rw [List.getElem_set_self]
        simp [effectiveDirection, hdir]
      · rw [List.getElem_set_ne (fun hh => hji hh.symm)]
  · simp only [listRecordsRequest, providerSortSpec_listRecordsParams, hsort,
      Option.getD, List.get_eq_getElem]
    rw [List.get?_eq_getElem?, List.getElem?_map]
    rw [List.getElem?_eq_getElem hi]
    simp [effectiveDirection, hdir]

/-- C8 witness: one sort entry with no direction sorts its field ascending. -/
theorem sort_direction_defaults_asc_witness :
    (providerSortSpec 0 (listRecordsRequest "appA" "tblA"
        { view := none, maxRecords := none,
          sort := some [{ field := "Name", direction := none }],
          filterByFormula := none }).params).get? 0 =
      some ("Name", SortDirection.asc) :=
  (sort_direction_defaults_asc "appA" "tblA"
    { view := none, maxRecords := none,
      sort := some [{ field := "Name", direction := none }],
      filterByFormula := none }
    [{ field := "Name", direction := none }] 0 (by decide) rfl rfl).2
